import Mathlib

/-!
Verification of the Chell traceback-rendering engine.

This file is a shallow embedding of `src/chell/traceb.py` (the traceback
renderer) and of the input-classification part of `src/chell/shell/base.py`
(the shell loop), together with theorems settling the specification claims.

Modelling conventions:
* Python strings are Lean `String`; `"\n".join` is `String.intercalate "\n"`.
* A captured stack frame is an immutable snapshot (`FrameType`, `CodeType`):
  the source text that `inspect.getsource` would read from disk is carried in
  the snapshot as `co_source` (`none` models an unreadable source file, in
  which case `getsource` raises `OSError`), already split on the newline
  character exactly as `.split(NEWLINE)` would produce it.
* Local variables (`f_locals`) are carried as an association list of
  `(name, str(value))` pairs in dict iteration order; only the default
  string form of each value is ever used by the renderer.
* A traceback chain (`TracebackType`) is a finite non-empty linked list of
  frames; `tb_next` is `none` exactly on the deepest frame.  Finiteness and
  acyclicity are the execution-environment invariants assumed by the spec.
* Python exceptions are modelled by `PyErr`.  Mutation of the
  `TracebackRender` accumulator plus raised exceptions are modelled by
  explicit state passing: each operation returns the state after the
  operation, the list of accumulator events it performed (`RenderEvent`),
  and `some e` when it raised `e` (in which case callers propagate).
* CPython name-mangling detail that drives the central finding: inside the
  class body of `TracebackRender`, both the `__slots__` entries and every
  `self.__rendered` / `self.__last_tb` / `self.__error` access are mangled
  to `_TracebackRender__...`, so all methods and properties of the class
  work.  The module-level function `render_tb_frame`, however, executes
  `render.__rendered.append(...)` outside any class body, where no mangling
  happens; the instance (which has `__slots__` and hence no `__dict__`)
  owns no attribute literally named `__rendered`, so that attribute lookup
  raises `AttributeError` before anything is appended.
-/

namespace Chell

/-- `FRAME_OVERFLOW = "\t..."` (traceb.py line 7): the overflow marker. -/
def FRAME_OVERFLOW : String := "\t..."

/-- `NEWLINE = "\n"` (traceb.py line 9). -/
def NEWLINE : String := "\n"

/-- `TAB_SIZE = 4` (traceb.py line 11). -/
def TAB_SIZE : Nat := 4

/-- Python `s * n` for strings: `n` copies of `s` concatenated. -/
def pyStrMul (s : String) : Nat → String
  | 0 => ""
  | n + 1 => s ++ pyStrMul s n

/-- `TAB = " " * TAB_SIZE` (traceb.py line 12). -/
def TAB : String := pyStrMul " " TAB_SIZE

/-- `LINENO = "\033[35m%s\033[0m"` (traceb.py line 14), as the function
applying the `%` format: wraps a rendered line number in magenta ANSI
color codes. -/
def LINENO_fmt (s : String) : String := "\x1b[35m" ++ s ++ "\x1b[0m"

/-- `ERRLINE = "%s \033[31m<<]\033[0m"` (traceb.py line 15), as the function
applying the `%` format: appends the red failing-line marker to a line. -/
def ERRLINE_fmt (s : String) : String := s ++ " \x1b[31m<<]\x1b[0m"

/-- Python `tab_count or 1` where `tab_count : int | None`:
`None` and `0` are falsy and give `1`. -/
def pyOrOne : Option Nat → Nat
  | none => 1
  | some 0 => 1
  | some (n + 1) => n + 1

/-- `indent_line` (traceb.py lines 18-20): prefix `line` with
`TAB * tab_count`, where the `tab_count` argument defaults to `None` and is
replaced by `1` when falsy. -/
def indent_line (line : String) (tab_count : Option Nat) : String :=
  pyStrMul TAB (pyOrOne tab_count) ++ line

/-- `indent_lines` (traceb.py lines 23-32): indent every line that satisfies
`predicate` (default: every line) by `tab_count` tab units.  The Python code
mutates the list in place and returns it; the model returns the mapped
list. -/
def indent_lines (lines : List String) (predicate : Option (String → Bool))
    (tab_count : Option Nat) : List String :=
  let p := match predicate with
    | none => fun _ => true
    | some q => q
  let tc := pyOrOne tab_count
  lines.map fun line => if p line then indent_line line (some tc) else line

/-- Snapshot of a Python code object (`types.CodeType`) with the attributes
the renderer reads.  `co_source` is the text `inspect.getsource(co_code)`
would return, split on `NEWLINE`; `none` models a code unit whose source
cannot be read, in which case `getsource` raises `OSError`. -/
structure CodeType where
  co_filename : String
  co_name : String
  co_firstlineno : Nat
  co_source : Option (List String)
deriving DecidableEq, Repr

/-- Snapshot of a Python frame object (`types.FrameType`) with the
attributes the renderer reads.  `f_locals` is the local-variable mapping in
dict iteration order, each value already in its default `str` form. -/
structure FrameType where
  f_code : CodeType
  f_lineno : Nat
  f_locals : List (String × String)
deriving DecidableEq, Repr

/-- A traceback chain (`types.TracebackType`): a finite, acyclic, non-empty
linked sequence of frames.  `leaf` is a traceback whose `tb_next` is `None`
(the deepest, faulting record); `cons` links a frame to the next-deeper
traceback. -/
inductive TracebackType where
  | leaf (tb_frame : FrameType)
  | cons (tb_frame : FrameType) (tb_nxt : TracebackType)
deriving DecidableEq, Repr

/-- The `tb_frame` attribute of a traceback record. -/
def TracebackType.tb_frame : TracebackType → FrameType
  | .leaf f => f
  | .cons f _ => f

/-- The `tb_next` attribute: `none` on the deepest record. -/
def TracebackType.tb_next : TracebackType → Option TracebackType
  | .leaf _ => none
  | .cons _ nxt => some nxt

/-- The traceback record reached from `tb` by following `tb_next` links
until none remain (the spec calls its frame the faulting frame). -/
def deepestTB : TracebackType → TracebackType
  | .leaf f => .leaf f
  | .cons _ nxt => deepestTB nxt

/-- The frames of a chain, catch-site first. -/
def framesOf : TracebackType → List FrameType
  | .leaf f => [f]
  | .cons f nxt => f :: framesOf nxt

/-- Python exceptions raised by the modelled code. -/
inductive PyErr where
  | attributeError (msg : String)
  | osError (msg : String)
deriving DecidableEq, Repr

/-- Message of the `OSError` that `inspect.getsource` raises when the
source of a code object is unavailable. -/
def getsourceErrMsg : String := "could not get source code"

/-- Message of the `AttributeError` raised by `render.__rendered` in
`render_tb_frame`: the `__slots__` entry was mangled to
`_TracebackRender__rendered`, so no attribute named `__rendered` exists. -/
def renderedAttrErrMsg : String :=
  "TracebackRender object has no attribute __rendered"

/-- Boolean observer for `Except`: `true` exactly on `.ok`. -/
def exceptIsOk : Except PyErr α → Bool
  | .ok _ => true
  | .error _ => false

/-- Python slice `xs[:stop]` for an `int` stop: a non-negative stop keeps
the first `stop` elements (clamped to the length); a negative stop keeps
`max 0 (len + stop)` elements. -/
def pySliceTo (xs : List α) (stop : Int) : List α :=
  if stop < 0 then xs.take (((xs.length : Int) + stop).toNat)
  else xs.take stop.toNat

/-- Python `str.rjust(width, fill)`: pad on the left with `fill` up to
`width` characters. -/
def rjust (s : String) (width : Nat) (fill : Char) : String :=
  if width ≤ s.length then s
  else String.mk (List.replicate (width - s.length) fill) ++ s

/-- The source lines kept by `render_tb_source` (traceb.py lines 119-122):
`linestop = frame.f_lineno - co_code.co_firstlineno` and the slice
`[:linestop + 1]` of the split source text. -/
def keptSource (frame : FrameType) (co_code : CodeType)
    (srcLines : List String) : List String :=
  pySliceTo srcLines ((frame.f_lineno : Int) - (co_code.co_firstlineno : Int) + 1)

/-- One iteration of the numbering loop of `render_tb_source` (traceb.py
lines 128-133) on the pair `(ind, line)` produced by `enumerate`: the entry
`(lineno, line, highlighted)` where `lineno = linestart + ind - 1` and
`highlighted` is the loop's test `lineno == frame.f_lineno` deciding
whether `ERRLINE` is applied. -/
def entryOf (linestart errLine : Nat) (p : Nat × String) : Int × String × Bool :=
  ((linestart : Int) + (p.1 : Int) - 1, p.2,
    ((linestart : Int) + (p.1 : Int) - 1) == (errLine : Int))

/-- The source window of a frame before final string formatting: the kept
slice wrapped in the two unconditional overflow markers and indented one
tab unit (traceb.py lines 122-126), then numbered by the loop of lines
128-133.  This is the spec's `SourceWindow`: display lines tagged with
their absolute line number and a highlight flag. -/
def windowEntries (frame : FrameType) (co_code : CodeType)
    (srcLines : List String) : List (Int × String × Bool) :=
  (indent_lines
    (FRAME_OVERFLOW :: keptSource frame co_code srcLines ++ [FRAME_OVERFLOW])
    none (some 1)).enum.map
    (entryOf co_code.co_firstlineno frame.f_lineno)

/-- The final per-line formatting of the loop body (traceb.py lines
128-133): apply `ERRLINE` when highlighted, then
`f"|{LINENO % str(lineno).rjust(3, "0")} {line}"`. -/
def formatEntry (e : Int × String × Bool) : String :=
  let line := if e.2.2 then ERRLINE_fmt e.2.1 else e.2.1
  "|" ++ LINENO_fmt (rjust (toString e.1) 3 '0') ++ " " ++ line

/-- `render_tb_source` (traceb.py lines 118-135).  Raises `OSError` when
`inspect.getsource` cannot read the source of `co_code`; otherwise returns
the newline-joined formatted window. -/
def render_tb_source (frame : FrameType) (co_code : CodeType) :
    Except PyErr String :=
  match co_code.co_source with
  | none => .error (.osError getsourceErrMsg)
  | some srcLines =>
      .ok (String.intercalate NEWLINE
        ((windowEntries frame co_code srcLines).map formatEntry))

/-- The state of a `TracebackRender` instance (traceb.py lines 35-75).  The
fields model the slots `_TracebackRender__rendered`,
`_TracebackRender__last_tb` and `_TracebackRender__error`; `__init__` sets
the first two and leaves `__error` unset (`none`). -/
structure TracebackRender where
  rendered : List String
  last_tb : Option TracebackType
  error : Option String
deriving DecidableEq, Repr

/-- Accumulator events of one render call, in execution order: `setLast tb`
models the `render.last = tb` assignment, `appendBlock b` models a
successful `render.__rendered.append(b)` (which, with the mangling defect,
never actually happens). -/
inductive RenderEvent where
  | setLast (tb : TracebackType)
  | appendBlock (block : String)
deriving DecidableEq, Repr

/-- `true` exactly on `setLast` events. -/
def isSetLast : RenderEvent → Bool
  | .setLast _ => true
  | .appendBlock _ => false

/-- `true` exactly on `appendBlock` events. -/
def isAppendBlock : RenderEvent → Bool
  | .setLast _ => false
  | .appendBlock _ => true

/-- Python `repr` of a simple name (`co_name` contains no quotes or
escapes): wrap in single quotes. -/
def pyRepr (s : String) : String := "\x27" ++ s ++ "\x27"

/-- `render_tb_frame` (traceb.py lines 97-115), as a state transformer
returning `(state after, events performed, raised exception)`.  The body
builds the local `frame_render` list (header line, indented function/line
header, source window) and then executes
`render.__rendered.append("\n".join(frame_render))`.  With `__slots__`
mangling, the instance has no attribute `__rendered`, so when
`render_tb_source` succeeds the attribute lookup raises `AttributeError`
and the block is discarded; when `render_tb_source` raises, that exception
propagates first.  Either way the state is unchanged and no event
happens. -/
def render_tb_frame (tb : TracebackType) (render : TracebackRender) :
    TracebackRender × List RenderEvent × Option PyErr :=
  let frame := tb.tb_frame
  let co_code := frame.f_code
  let _frame_render : List String :=
    ["from " ++ co_code.co_filename,
     indent_line
       ("in " ++ pyRepr co_code.co_name ++ " @ line "
         ++ toString frame.f_lineno ++ ":") none]
  match render_tb_source frame co_code with
  | .error e => (render, [], some e)
  | .ok _src => (render, [], some (.attributeError renderedAttrErrMsg))

/-- The nested function `inner` of `render_tb` (traceb.py lines 86-91):
recurse along `tb_next`; on the deepest record execute `render.last = tb`;
then, unwinding, call `render_tb_frame` on the current record.  A raised
exception propagates and skips all remaining work. -/
def inner (tb : TracebackType) (render : TracebackRender) :
    TracebackRender × List RenderEvent × Option PyErr :=
  match tb with
  | .cons _ nxt =>
      match inner nxt render with
      | (r1, ev1, some e) => (r1, ev1, some e)
      | (r1, ev1, none) =>
          let (r2, ev2, e2) := render_tb_frame tb r1
          (r2, ev1 ++ ev2, e2)
  | .leaf _ =>
      let r1 : TracebackRender := { render with last_tb := some tb }
      let (r2, ev2, e2) := render_tb_frame tb r1
      (r2, RenderEvent.setLast tb :: ev2, e2)

/-- The full run of `render_tb` (traceb.py lines 78-94): construct a fresh
`TracebackRender` (`__init__` sets `rendered = []`, `last_tb = None`),
execute `render.error = exc`, then `inner(tb)`.  Returns the final
accumulator state, the events in execution order, and the exception that
propagated out of `inner`, if any. -/
def render_tb_run (exc : String) (tb : TracebackType) :
    TracebackRender × List RenderEvent × Option PyErr :=
  let render : TracebackRender := { rendered := [], last_tb := none, error := none }
  let render := { render with error := some exc }
  inner tb render

/-- `render_tb` as observed by its caller: the returned `TracebackRender`
on normal completion, or the propagated exception. -/
def render_tb (exc : String) (tb : TracebackType) :
    Except PyErr TracebackRender :=
  match render_tb_run exc tb with
  | (_, _, some e) => .error e
  | (st, _, none) => .ok st

/-- The `message` property of `TracebackRender` (traceb.py lines 57-67):
join the reversed accumulated blocks, then append a `locals:` section with
one indented `name: value` line per entry of the faulting frame's
`f_locals`.  Reading `self.__last_tb.tb_frame` raises `AttributeError` when
`last` was never set (`None` has no attribute `tb_frame`). -/
def TracebackRender.message (self : TracebackRender) : Except PyErr String :=
  match self.last_tb with
  | none => .error (.attributeError "NoneType object has no attribute tb_frame")
  | some tb =>
      let tb_locals := tb.tb_frame.f_locals
      let msg := [String.intercalate NEWLINE self.rendered.reverse]
      let msg := msg ++ ["locals:"]
        ++ indent_lines (tb_locals.map fun p => p.1 ++ ": " ++ p.2) none none
      .ok (String.intercalate NEWLINE msg)

/-- The tokens of `InputTokens` (shell/base.py lines 35-38), a `str`-valued
enum with values `"unknown"` and `"exit"`. -/
inductive InputTokens where
  | UNKNOWN
  | EXIT
deriving DecidableEq, Repr

/-- Enum lookup by value, `InputTokens(response)`: returns the member whose
value equals `response`, or raises `ValueError`. -/
def inputTokensOfValue (s : String) : Except String InputTokens :=
  if s = "unknown" then .ok .UNKNOWN
  else if s = "exit" then .ok .EXIT
  else .error "ValueError"

/-- The classification performed by `shellin` (shell/base.py lines 50-54)
on the string returned by the input caller: `try: return
InputTokens(response), response` with `except ValueError` returning
`(InputTokens("unknown"), response)`.  The `ValueError` is caught, so the
classifier is total. -/
def shellin_classify (response : String) : InputTokens × String :=
  match inputTokensOfValue response with
  | .ok token => (token, response)
  | .error _ => (.UNKNOWN, response)

/-- Concatenation of a list of strings, used to state how the rendered
message decomposes into a body followed by the per-entry locals lines. -/
def concatLines : List String → String
  | [] => ""
  | s :: rest => s ++ concatLines rest

/-- The exception that `render_tb_frame` raises on a traceback record:
`OSError` from `inspect.getsource` when the record's source is unreadable,
otherwise the `AttributeError` from the unmangled `render.__rendered`
access.  Observer used to state the run lemmas. -/
def frameErr (tb : TracebackType) : PyErr :=
  match tb.tb_frame.f_code.co_source with
  | none => .osError getsourceErrMsg
  | some _ => .attributeError renderedAttrErrMsg

/-- The accumulator state after a `render_tb` call (mutations survive the
propagated exception: the Python object outlives the raise). -/
def runState (exc : String) (tb : TracebackType) : TracebackRender :=
  (render_tb_run exc tb).1

/-- The accumulator events of a `render_tb` call, in execution order. -/
def runTrace (exc : String) (tb : TracebackType) : List RenderEvent :=
  (render_tb_run exc tb).2.1

/-! Concrete instances used as witnesses and counterexamples.  `frameF` and
`frameG` realize the two-frame end-to-end scenario of spec section 8:
outer frame in file `a`, function `f`, failing line 5, code start 3;
inner (faulting) frame in file `b`, function `g`, failing line 20, code
start 18, locals `{"n": 0}`. -/

/-- Outer (catch-site) frame of the concrete two-frame chain. -/
def frameF : FrameType :=
  { f_code := { co_filename := "a", co_name := "f", co_firstlineno := 3,
                co_source := some ["def f():", "    y = 1", "    g()"] },
    f_lineno := 5, f_locals := [] }

/-- Source lines of the faulting frame's code unit. -/
def srcG : List String := ["def g():", "    x = 1", "    return n / x"]

/-- Inner (faulting) frame of the concrete two-frame chain. -/
def frameG : FrameType :=
  { f_code := { co_filename := "b", co_name := "g", co_firstlineno := 18,
                co_source := some srcG },
    f_lineno := 20, f_locals := [("n", "0")] }

/-- The concrete two-frame chain: catch site `f`, faulting frame `g`. -/
def chainFG : TracebackType := .cons frameF (.leaf frameG)

/-- A frame whose code unit's source cannot be read. -/
def frameNoSrc : FrameType :=
  { f_code := { co_filename := "c", co_name := "h", co_firstlineno := 1,
                co_source := none },
    f_lineno := 2, f_locals := [] }

/-- A one-frame chain whose only frame has unreadable source. -/
def chainNoSrc : TracebackType := .leaf frameNoSrc

/-- Source lines for the valid-frame window example of the spec:
`codeStart = 10`, `errLine = 13`. -/
def srcC4 : List String :=
  ["def w():", "    a = 1", "    b = 2", "    return a / 0"]

/-- Valid frame with `codeStart = 10` and `errLine = 13`. -/
def frameC4 : FrameType :=
  { f_code := { co_filename := "w.py", co_name := "w", co_firstlineno := 10,
                co_source := some srcC4 },
    f_lineno := 13, f_locals := [] }

/-- A one-line source text. -/
def srcC5 : List String := ["x = 1"]

/-- Frame with `offset = 4 ≥ 0` but only one available source line: the
slice is clamped, so the window has `1 + 2` lines, not `offset + 3`. -/
def frameC5 : FrameType :=
  { f_code := { co_filename := "d", co_name := "q", co_firstlineno := 1,
                co_source := some srcC5 },
    f_lineno := 5, f_locals := [] }

/-- A two-line source text. -/
def srcC8 : List String := ["a = 1", "b = 2"]

/-- Frame with a negative offset (`errLine = 3` before `codeStart = 10`). -/
def frameC8 : FrameType :=
  { f_code := { co_filename := "e", co_name := "r", co_firstlineno := 10,
                co_source := some srcC8 },
    f_lineno := 3, f_locals := [] }

/-- Frame used to exercise the locals section, with local bindings
`{"x": 1, "y": "a"}` in iteration order. -/
def frameLocals : FrameType :=
  { f_code := { co_filename := "m", co_name := "p", co_firstlineno := 1,
                co_source := some ["def p():", "    pass"] },
    f_lineno := 2, f_locals := [("x", "1"), ("y", "a")] }

/-- A render state holding two accumulated blocks and a faulting frame. -/
def stLocals : TracebackRender :=
  { rendered := ["block one", "block two"],
    last_tb := some (.leaf frameLocals),
    error := some "E" }

/-! Helper lemmas about the run of `render_tb` and about the source
window.  These are shared infrastructure; the claim theorems follow. -/

theorem render_tb_frame_eq (tb : TracebackType) (render : TracebackRender) :
    render_tb_frame tb render = (render, [], some (frameErr tb)) := by
  rcases hsrc : tb.tb_frame.f_code.co_source with _ | lines <;>
    simp [render_tb_frame, render_tb_source, frameErr, hsrc]

theorem inner_eq (tb : TracebackType) (st : TracebackRender) :
    inner tb st
      = ({ st with last_tb := some (deepestTB tb) },
         [RenderEvent.setLast (deepestTB tb)],
         some (frameErr (deepestTB tb))) := by
  induction tb generalizing st with
  | leaf f => simp [inner, render_tb_frame_eq, deepestTB]
  | cons f nxt ih => simp [inner, ih, deepestTB]

theorem render_tb_run_eq (exc : String) (tb : TracebackType) :
    render_tb_run exc tb
      = ({ rendered := [], last_tb := some (deepestTB tb), error := some exc },
         [RenderEvent.setLast (deepestTB tb)],
         some (frameErr (deepestTB tb))) := by
  simp [render_tb_run, inner_eq]

theorem render_tb_eq (exc : String) (tb : TracebackType) :
    render_tb exc tb = .error (frameErr (deepestTB tb)) := by
  simp [render_tb, render_tb_run_eq]

theorem deepestTB_next_none (tb : TracebackType) :
    (deepestTB tb).tb_next = none := by
  induction tb with
  | leaf f => rfl
  | cons f nxt ih => simpa [deepestTB] using ih

theorem indent_lines_all_one (lst : List String) (tc : Option Nat)
    (h : pyOrOne tc = 1) :
    indent_lines lst none tc = lst.map (fun l => TAB ++ l) := by
  simp only [indent_lines, h]
  simp [indent_line, pyOrOne, pyStrMul]

theorem windowEntries_length (frame : FrameType) (co_code : CodeType)
    (srcLines : List String) :
    (windowEntries frame co_code srcLines).length
      = (keptSource frame co_code srcLines).length + 2 := by
  simp [windowEntries, indent_lines]

theorem windowEntries_fst (frame : FrameType) (co_code : CodeType)
    (srcLines : List String) (i : Nat)
    (hi : i < (windowEntries frame co_code srcLines).length) :
    ((windowEntries frame co_code srcLines)[i]).1
      = (co_code.co_firstlineno : Int) + (i : Int) - 1 := by
  simp [windowEntries, List.getElem_map, List.getElem_enum, entryOf]

theorem windowEntries_flag (frame : FrameType) (co_code : CodeType)
    (srcLines : List String) (i : Nat)
    (hi : i < (windowEntries frame co_code srcLines).length) :
    ((windowEntries frame co_code srcLines)[i]).2.2
      = (((co_code.co_firstlineno : Int) + (i : Int) - 1)
          == (frame.f_lineno : Int)) := by
  simp [windowEntries, List.getElem_map, List.getElem_enum, entryOf]

theorem windowEntries_text (frame : FrameType) (co_code : CodeType)
    (srcLines : List String) :
    (windowEntries frame co_code srcLines).map (fun e => e.2.1)
      = (FRAME_OVERFLOW :: keptSource frame co_code srcLines
          ++ [FRAME_OVERFLOW]).map (fun l => TAB ++ l) := by
  rw [windowEntries, List.map_map,
    show ((fun e => e.2.1) ∘ entryOf co_code.co_firstlineno frame.f_lineno)
        = Prod.snd from funext fun p => rfl,
    List.enum_map_snd, indent_lines_all_one _ (some 1) rfl]

theorem keptSource_of_ge (frame : FrameType) (co_code : CodeType)
    (srcLines : List String)
    (h1 : co_code.co_firstlineno ≤ frame.f_lineno) :
    keptSource frame co_code srcLines
      = srcLines.take (frame.f_lineno - co_code.co_firstlineno + 1) := by
  have hstop : (frame.f_lineno : Int) - (co_code.co_firstlineno : Int) + 1
      = ((frame.f_lineno - co_code.co_firstlineno + 1 : Nat) : Int) := by
    push_cast; omega
  rw [keptSource, pySliceTo, hstop, if_neg (by omega), Int.toNat_natCast]

theorem keptSource_length_of_valid (frame : FrameType) (co_code : CodeType)
    (srcLines : List String)
    (h1 : co_code.co_firstlineno ≤ frame.f_lineno)
    (h2 : frame.f_lineno - co_code.co_firstlineno + 1 ≤ srcLines.length) :
    (keptSource frame co_code srcLines).length
      = frame.f_lineno - co_code.co_firstlineno + 1 := by
  rw [keptSource_of_ge frame co_code srcLines h1]
  simp only [List.length_take]
  omega

theorem pySliceTo_is_take {α : Type} (xs : List α) (stop : Int) :
    ∃ n, n ≤ xs.length ∧ pySliceTo xs stop = xs.take n := by
  rw [pySliceTo]
  split
  · exact ⟨(((xs.length : Int)) + stop).toNat, by omega, rfl⟩
  · refine ⟨min stop.toNat xs.length, Nat.min_le_right _ _, ?_⟩
    rw [List.take_eq_take]
    omega

theorem intercalate_go_concat (l : List String) (acc s : String) :
    String.intercalate.go acc s l
      = acc ++ concatLines (l.map (fun t => s ++ t)) := by
  induction l generalizing acc with
  | nil => simp [String.intercalate.go, concatLines]
  | cons a t ih =>
      simp [String.intercalate.go, concatLines, ih, String.append_assoc]

theorem intercalate_cons (s a : String) (l : List String) :
    String.intercalate s (a :: l)
      = a ++ concatLines (l.map (fun t => s ++ t)) := by
  simp [String.intercalate, intercalate_go_concat]

/-! The claim theorems. -/

/-- C1: bug evidence.  The claim says that for a well-formed chain of N
frames `render_tb` accumulates exactly N rendered frame blocks and the
final message presents them in reverse accumulation order.  The code
cannot do this: on the concrete two-frame chain `chainFG` (spec section 8
scenario), `render_tb` raises `AttributeError` at the very first
`render.__rendered.append` (the slot is mangled to
`_TracebackRender__rendered`), the block list stays empty, no append event
ever happens, and no message is produced. -/
theorem render_tb_accumulates_no_blocks_bug :
    render_tb "RuntimeError: boom" chainFG
      = .error (.attributeError renderedAttrErrMsg)
    ∧ (runState "RuntimeError: boom" chainFG).rendered = []
    ∧ (runTrace "RuntimeError: boom" chainFG).countP isAppendBlock = 0 := by
  refine ⟨?_, ?_, ?_⟩ <;> rfl

/-- C2: for every exception and every traceback chain, `render_tb` never
returns a report, and — whenever the deepest frame's source is readable,
which the spec's operating environment guarantees — the propagated
exception is precisely the `AttributeError` caused by accessing the
unmangled attribute name `__rendered` from outside the class, failing on
the very first append (deepest frame). -/
theorem render_tb_always_raises (exc : String) (tb : TracebackType) :
    exceptIsOk (render_tb exc tb) = false
    ∧ ((deepestTB tb).tb_frame.f_code.co_source.isSome = true →
        render_tb exc tb = .error (.attributeError renderedAttrErrMsg)) := by
  constructor
  · rw [render_tb_eq]; rfl
  · intro h
    rcases hsrc : (deepestTB tb).tb_frame.f_code.co_source with _ | lines
    · simp [hsrc] at h
    · rw [render_tb_eq]
      simp [frameErr, hsrc]

/-- Witness for C2 at the concrete two-frame chain. -/
theorem render_tb_always_raises_witness :
    exceptIsOk (render_tb "E" chainFG) = false
    ∧ render_tb "E" chainFG = .error (.attributeError renderedAttrErrMsg) :=
  ⟨(render_tb_always_raises "E" chainFG).1,
   (render_tb_always_raises "E" chainFG).2 rfl⟩

/-- C3: in every run, the faulting frame recorded in the render state
(`render.last`) is exactly the record reached by following `tb_next` links
until none remain (its own `tb_next` is absent, so it is never an
intermediate frame), the assignment happens exactly once, and it precedes
every appended frame block in the event order. -/
theorem render_state_last_is_deepest (exc : String) (tb : TracebackType) :
    (runState exc tb).last_tb = some (deepestTB tb)
    ∧ (deepestTB tb).tb_next = none
    ∧ (runTrace exc tb).countP isSetLast = 1
    ∧ (∀ j, ∀ hj : j < (runTrace exc tb).length,
        isAppendBlock ((runTrace exc tb)[j]) = true →
        ∃ i, ∃ hi : i < (runTrace exc tb).length,
          i < j ∧ isSetLast ((runTrace exc tb)[i]) = true) := by
  have hrun := render_tb_run_eq exc tb
  refine ⟨?_, deepestTB_next_none tb, ?_, ?_⟩
  · simp [runState, hrun]
  · simp [runTrace, hrun, isSetLast]
  · intro j hj happ
    exfalso
    have hall : ∀ e ∈ runTrace exc tb, isAppendBlock e = false := by
      simp [runTrace, hrun, isAppendBlock]
    have hmem : (runTrace exc tb)[j] ∈ runTrace exc tb := List.getElem_mem hj
    rw [hall _ hmem] at happ
    exact Bool.false_ne_true happ

/-- Witness for C3: instance at the concrete two-frame chain. -/
theorem render_state_last_is_deepest_witness :
    (runState "E3" chainFG).last_tb = some (deepestTB chainFG)
    ∧ (deepestTB chainFG).tb_next = none
    ∧ (runTrace "E3" chainFG).countP isSetLast = 1
    ∧ (∀ j, ∀ hj : j < (runTrace "E3" chainFG).length,
        isAppendBlock ((runTrace "E3" chainFG)[j]) = true →
        ∃ i, ∃ hi : i < (runTrace "E3" chainFG).length,
          i < j ∧ isSetLast ((runTrace "E3" chainFG)[i]) = true) :=
  render_state_last_is_deepest "E3" chainFG

/-- C4: for a valid frame (failing line at or after the code start and
within the available source lines), every window entry's absolute line
number is `codeStart + index - 1`, and exactly one entry is highlighted —
the one whose absolute number equals the frame's failing line number. -/
theorem source_window_highlight_unique (frame : FrameType)
    (co_code : CodeType) (srcLines : List String)
    (h1 : co_code.co_firstlineno ≤ frame.f_lineno)
    (h2 : frame.f_lineno - co_code.co_firstlineno + 1 ≤ srcLines.length) :
    (∀ i, ∀ hi : i < (windowEntries frame co_code srcLines).length,
        ((windowEntries frame co_code srcLines)[i]).1
          = (co_code.co_firstlineno : Int) + (i : Int) - 1)
    ∧ ∃ k, ∃ hk : k < (windowEntries frame co_code srcLines).length,
        ((windowEntries frame co_code srcLines)[k]).2.2 = true
        ∧ ((windowEntries frame co_code srcLines)[k]).1
            = (frame.f_lineno : Int)
        ∧ ∀ i, ∀ hi : i < (windowEntries frame co_code srcLines).length,
            ((windowEntries frame co_code srcLines)[i]).2.2 = true → i = k := by
  have hlen : (windowEntries frame co_code srcLines).length
      = (frame.f_lineno - co_code.co_firstlineno) + 3 := by
    rw [windowEntries_length,
      keptSource_length_of_valid frame co_code srcLines h1 h2]
  refine ⟨fun i hi => windowEntries_fst frame co_code srcLines i hi, ?_⟩
  refine ⟨frame.f_lineno - co_code.co_firstlineno + 1, by omega, ?_, ?_, ?_⟩
  · rw [windowEntries_flag frame co_code srcLines _ (by omega), beq_iff_eq]
    push_cast
    omega
  · rw [windowEntries_fst frame co_code srcLines _ (by omega)]
    push_cast
    omega
  · intro i hi hflag
    rw [windowEntries_flag frame co_code srcLines i hi, beq_iff_eq] at hflag
    omega

/-- Witness for C4 at the spec's example: `codeStart = 10`,
`errLine = 13`. -/
theorem source_window_highlight_unique_witness :
    (∀ i, ∀ hi : i < (windowEntries frameC4 frameC4.f_code srcC4).length,
        ((windowEntries frameC4 frameC4.f_code srcC4)[i]).1
          = (frameC4.f_code.co_firstlineno : Int) + (i : Int) - 1)
    ∧ ∃ k, ∃ hk : k < (windowEntries frameC4 frameC4.f_code srcC4).length,
        ((windowEntries frameC4 frameC4.f_code srcC4)[k]).2.2 = true
        ∧ ((windowEntries frameC4 frameC4.f_code srcC4)[k]).1
            = (frameC4.f_lineno : Int)
        ∧ ∀ i, ∀ hi : i < (windowEntries frameC4 frameC4.f_code srcC4).length,
            ((windowEntries frameC4 frameC4.f_code srcC4)[i]).2.2 = true
              → i = k :=
  source_window_highlight_unique frameC4 frameC4.f_code srcC4
    (by decide) (by decide)

/-- C5 counterexample: the frame `frameC5` has `offset = 4 ≥ 0` but only
one available source line, so the window has `3` lines, not
`offset + 3 = 7`: the claim fails as stated when the failing line exceeds
the available source. -/
theorem source_window_count_counterexample :
    (windowEntries frameC5 frameC5.f_code srcC5).length = 3
    ∧ ((windowEntries frameC5 frameC5.f_code srcC5).length
        == (frameC5.f_lineno - frameC5.f_code.co_firstlineno) + 3) = false := by
  constructor <;> rfl

/-- C5 amended: for a frame with `offset = errLine - codeStart ≥ 0` whose
failing line is within the available source (`offset + 1 ≤` line count),
the window is exactly the `offset + 1` kept source lines wrapped in the
two unconditional overflow markers, `offset + 3` lines in total. -/
theorem source_window_count_amended (frame : FrameType)
    (co_code : CodeType) (srcLines : List String)
    (h1 : co_code.co_firstlineno ≤ frame.f_lineno)
    (h2 : frame.f_lineno - co_code.co_firstlineno + 1 ≤ srcLines.length) :
    (windowEntries frame co_code srcLines).length
      = (frame.f_lineno - co_code.co_firstlineno) + 3
    ∧ (windowEntries frame co_code srcLines).map (fun e => e.2.1)
      = (FRAME_OVERFLOW
          :: srcLines.take (frame.f_lineno - co_code.co_firstlineno + 1)
          ++ [FRAME_OVERFLOW]).map (fun l => TAB ++ l) := by
  constructor
  · rw [windowEntries_length,
      keptSource_length_of_valid frame co_code srcLines h1 h2]
  · rw [windowEntries_text, keptSource_of_ge frame co_code srcLines h1]

/-- Witness for the amended C5 at `codeStart = 10`, `errLine = 13`. -/
theorem source_window_count_amended_witness :
    (windowEntries frameC4 frameC4.f_code srcC4).length
      = (frameC4.f_lineno - frameC4.f_code.co_firstlineno) + 3
    ∧ (windowEntries frameC4 frameC4.f_code srcC4).map (fun e => e.2.1)
      = (FRAME_OVERFLOW
          :: srcC4.take (frameC4.f_lineno - frameC4.f_code.co_firstlineno + 1)
          ++ [FRAME_OVERFLOW]).map (fun l => TAB ++ l) :=
  source_window_count_amended frameC4 frameC4.f_code srcC4
    (by decide) (by decide)

/-- C6: whenever the render state records a faulting frame, the message is
the reversed joined blocks followed by a `locals:` header and then exactly
one indented `name: value` line per entry of the faulting frame's locals
mapping, in iteration order and covering each entry exactly once. -/
theorem message_locals_lines (st : TracebackRender) (tbL : TracebackType)
    (h : st.last_tb = some tbL) :
    st.message
      = .ok (String.intercalate NEWLINE st.rendered.reverse
          ++ ((NEWLINE ++ "locals:")
              ++ concatLines (tbL.tb_frame.f_locals.map
                  (fun p => NEWLINE ++ (TAB ++ (p.1 ++ ": " ++ p.2))))))
    ∧ (tbL.tb_frame.f_locals.map
        (fun p => NEWLINE ++ (TAB ++ (p.1 ++ ": " ++ p.2)))).length
      = tbL.tb_frame.f_locals.length := by
  refine ⟨?_, by simp⟩
  simp only [TracebackRender.message, h]
  rw [indent_lines_all_one _ none rfl, List.map_map]
  simp only [List.singleton_append, List.cons_append, List.nil_append]
  rw [intercalate_cons]
  simp only [concatLines, List.map_map, String.append_assoc]
  rfl

/-- Witness for C6: locals `{"x": 1, "y": "a"}` yield the two indented
lines `x: 1` and `y: a` after the `locals:` header. -/
theorem message_locals_lines_witness :
    stLocals.message
      = .ok "block two\nblock one\nlocals:\n    x: 1\n    y: a" :=
  (message_locals_lines stLocals (.leaf frameLocals) rfl).1.trans (by rfl)

/-- C7: when some frame's code-unit source cannot be read, the render call
fails observably: `render_tb` propagates an exception to its caller and
never returns a (partial) report; in particular, when the deepest frame's
source is unreadable the propagated exception is the `OSError` of the
failed source read itself. -/
theorem render_tb_propagates_source_failure (exc : String)
    (tb : TracebackType)
    (_h : ∃ fr ∈ framesOf tb, fr.f_code.co_source = none) :
    exceptIsOk (render_tb exc tb) = false
    ∧ ((deepestTB tb).tb_frame.f_code.co_source = none →
        render_tb exc tb = .error (.osError getsourceErrMsg)) := by
  refine ⟨?_, ?_⟩
  · rw [render_tb_eq]; rfl
  · intro hdeep
    rw [render_tb_eq]
    simp [frameErr, hdeep]

/-- Witness for C7 at a one-frame chain with unreadable source. -/
theorem render_tb_propagates_source_failure_witness :
    exceptIsOk (render_tb "E7" chainNoSrc) = false
    ∧ render_tb "E7" chainNoSrc = .error (.osError getsourceErrMsg) :=
  ⟨(render_tb_propagates_source_failure "E7" chainNoSrc
      ⟨frameNoSrc, by simp [chainNoSrc, framesOf], rfl⟩).1,
   (render_tb_propagates_source_failure "E7" chainNoSrc
      ⟨frameNoSrc, by simp [chainNoSrc, framesOf], rfl⟩).2 rfl⟩

/-- C8: when the offset is negative or the failing line exceeds the
available source, rendering the window still succeeds: the kept slice is a
clamped initial segment of the available lines, the window is that segment
plus the two markers, and `render_tb_source` returns a formatted string
rather than raising. -/
theorem source_window_clamps (frame : FrameType) (co_code : CodeType)
    (srcLines : List String)
    (hsrc : co_code.co_source = some srcLines)
    (_hbad : (frame.f_lineno : Int) < (co_code.co_firstlineno : Int)
        ∨ (srcLines.length : Int)
            < (frame.f_lineno : Int) - (co_code.co_firstlineno : Int)) :
    (∃ n, n ≤ srcLines.length
        ∧ keptSource frame co_code srcLines = srcLines.take n
        ∧ (windowEntries frame co_code srcLines).length = n + 2)
    ∧ render_tb_source frame co_code
        = .ok (String.intercalate NEWLINE
            ((windowEntries frame co_code srcLines).map formatEntry)) := by
  refine ⟨?_, by simp [render_tb_source, hsrc]⟩
  obtain ⟨n, hn, heq⟩ := pySliceTo_is_take srcLines
    ((frame.f_lineno : Int) - (co_code.co_firstlineno : Int) + 1)
  have hkept : keptSource frame co_code srcLines = srcLines.take n := heq
  refine ⟨n, hn, hkept, ?_⟩
  rw [windowEntries_length, hkept, List.length_take]
  omega

/-- Witness for C8 at a frame whose failing line precedes the code start
(negative offset). -/
theorem source_window_clamps_witness :
    (∃ n, n ≤ srcC8.length
        ∧ keptSource frameC8 frameC8.f_code srcC8 = srcC8.take n
        ∧ (windowEntries frameC8 frameC8.f_code srcC8).length = n + 2)
    ∧ render_tb_source frameC8 frameC8.f_code
        = .ok (String.intercalate NEWLINE
            ((windowEntries frameC8 frameC8.f_code srcC8).map formatEntry)) :=
  source_window_clamps frameC8 frameC8.f_code srcC8 rfl (by decide)

/-- C9: the shell classifier pairs every input with itself, returns the
`EXIT` token exactly on the input `"exit"`, and classifies every other
input as `UNKNOWN` instead of failing (the `ValueError` of the enum lookup
is caught, so the classifier is a total function). -/
theorem shellin_classification (s : String) :
    ((shellin_classify s).1 = InputTokens.EXIT ↔ s = "exit")
    ∧ (shellin_classify s).2 = s
    ∧ (¬ s = "exit" → shellin_classify s = (InputTokens.UNKNOWN, s)) := by
  by_cases he : s = "exit"
  · subst he
    exact ⟨by simp [shellin_classify, inputTokensOfValue],
      rfl, fun hne => absurd rfl hne⟩
  · by_cases hu : s = "unknown"
    · subst hu
      exact ⟨by decide, rfl, fun _ => by decide⟩
    · have h1 : shellin_classify s = (InputTokens.UNKNOWN, s) := by
        simp [shellin_classify, inputTokensOfValue, hu, he]
      exact ⟨by rw [h1]; exact iff_of_false (by simp) he,
        by rw [h1], fun _ => h1⟩

/-- Witness for C9: an unrecognized input is classified as `UNKNOWN`, and
`"exit"` round-trips. -/
theorem shellin_classification_witness :
    shellin_classify "make" = (InputTokens.UNKNOWN, "make")
    ∧ (shellin_classify "exit").2 = "exit" :=
  ⟨(shellin_classification "make").2.2 (by decide),
   (shellin_classification "exit").2.1⟩

/-- C10: rendering is deterministic.  The embedding is pure — the chain
snapshot carries the locals order and the on-disk source text — so two
calls of the renderer on equal inputs produce equal run results and equal
(byte-identical) message strings. -/
theorem render_deterministic (exc1 exc2 : String)
    (tb1 tb2 : TracebackType) (st1 st2 : TracebackRender)
    (hexc : exc1 = exc2) (htb : tb1 = tb2) (hst : st1 = st2) :
    render_tb_run exc1 tb1 = render_tb_run exc2 tb2
    ∧ render_tb exc1 tb1 = render_tb exc2 tb2
    ∧ st1.message = st2.message := by
  subst hexc; subst htb; subst hst
  exact ⟨rfl, rfl, rfl⟩

/-- Witness for C10 at concrete inputs. -/
theorem render_deterministic_witness :
    render_tb_run "E" chainFG = render_tb_run "E" chainFG
    ∧ render_tb "E" chainFG = render_tb "E" chainFG
    ∧ stLocals.message = stLocals.message :=
  render_deterministic "E" "E" chainFG chainFG stLocals stLocals rfl rfl rfl

end Chell



